import Mathlib

/-!
# Verification of the witnessd input-capture core

Shallow embedding of the Windows TSF text service of the witnessd
repository, principally `src/cmd/witnessd-tsf/tsf/tsf_text_service.cpp`
(the complete service), with the basic variant from
`src/cmd/witnessd-tsf/tsf/witnessd_tsf.cpp` and the UTF-16 to UTF-8
helper from `src/witnessd-gui/windows/runner/utils.cpp`.

External collaborators (the Win32 API, the TSF host and the witnessd
engine behind the `Witnessd*` C functions) are modelled as explicit
parameters or as state fields; machine integers are `Nat`/`Int` with
explicit reductions modulo powers of two where the source truncates.
-/

/-- HRESULT success code `S_OK` (0). -/
def S_OK : Nat := 0

/-- HRESULT failure code `E_FAIL` (0x80004005). -/
def E_FAIL : Nat := 0x80004005

-- ============================================================================
-- Event Encoder: the 17-byte keystroke frame (WritePipe, lines 506-537)
-- ============================================================================

/-- Little-endian byte decomposition: `toLE k n` is the list of the `k`
low-order bytes of `n`, least significant first.  This is the byte image
the packed struct in `WritePipe` leaves in memory on a little-endian
machine. -/
def toLE : Nat → Nat → List Nat
  | 0, _ => []
  | k + 1, n => n % 256 :: toLE k (n / 256)

/-- Little-endian recomposition of a byte list into a natural number. -/
def fromLE : List Nat → Nat
  | [] => 0
  | b :: bs => b + 256 * fromLE bs

/-- `KeystrokeEvent` from the spec's data model: the fields of the packed
`msg` struct written by `WritePipe` in `tsf_text_service.cpp`.
`timestampNanos` is an `int64_t`, the others are `uint16_t`, `uint16_t`,
`uint32_t` and a `bool` stored as a `uint8_t`. -/
structure KeystrokeEvent where
  timestampNanos : Int
  virtualKeyCode : Nat
  scanCode : Nat
  flags : Nat
  isKeyDown : Bool
deriving Repr, DecidableEq

/-- The 17-byte wire frame of `WritePipe`: little-endian
`timestamp:i64 | vkCode:u16 | scanCode:u16 | flags:u32 | isDown:u8`,
with the `int64_t` timestamp stored as its two's-complement image
modulo `2^64`. -/
def encodeKeystroke (e : KeystrokeEvent) : List Nat :=
  toLE 8 (e.timestampNanos % (2 ^ 64 : Int)).toNat ++
  toLE 2 e.virtualKeyCode ++
  toLE 2 e.scanCode ++
  toLE 4 e.flags ++
  [if e.isKeyDown then 1 else 0]

/-- Decoding a 17-byte frame by the fixed layout of `WritePipe`: the
first 8 bytes are the two's-complement `int64_t` timestamp, then
`u16 | u16 | u32 | u8`, all little-endian. -/
def decodeKeystroke (bs : List Nat) : Option KeystrokeEvent :=
  if bs.length = 17 then
    some { timestampNanos :=
             if fromLE (bs.take 8) < 2 ^ 63 then (fromLE (bs.take 8) : Int)
             else (fromLE (bs.take 8) : Int) - 2 ^ 64,
           virtualKeyCode := fromLE ((bs.drop 8).take 2),
           scanCode := fromLE ((bs.drop 10).take 2),
           flags := fromLE ((bs.drop 12).take 4),
           isKeyDown := fromLE (bs.drop 16) != 0 }
  else none

-- ============================================================================
-- Transport: named pipe state machine (ConnectPipe/DisconnectPipe/WritePipe)
-- ============================================================================

/-- Result of one `WritePipe` call: the pipe handle validity afterwards
(`g_hPipe != INVALID_HANDLE_VALUE`), how many `ConnectPipe` attempts and
how many `WriteFile` attempts the call made, and whether a frame was
written. -/
structure PipeSend where
  pipe : Bool
  connectAttempts : Nat
  writeAttempts : Nat
  frameWritten : Bool
deriving Repr, DecidableEq

/-- `WritePipe` from `tsf_text_service.cpp` lines 506-537, with the
outcomes of the host calls `CreateFileW` (inside `ConnectPipe`) and
`WriteFile` passed in as `connectOk` / `writeOk`:
if the pipe handle is invalid, try `ConnectPipe` once and give up if it
fails; otherwise attempt the `WriteFile`, and on failure call
`DisconnectPipe` so the next call reconnects. -/
def WritePipe (pipe : Bool) (connectOk : Bool) (writeOk : Bool) : PipeSend :=
  if pipe then
    if writeOk then ⟨true, 0, 1, true⟩ else ⟨false, 0, 1, false⟩
  else
    if connectOk then
      if writeOk then ⟨true, 1, 1, true⟩ else ⟨false, 1, 1, false⟩
    else ⟨false, 1, 0, false⟩

-- ============================================================================
-- Focus Tracker (UpdateFocusInfo, lines 878-910) and session target
-- ============================================================================

/-- The focus-related fields of `WitnessdTextService`:
`currentFocusWindow_` (`HWND`, `none` = `nullptr`), `currentAppPath_`
and `currentWindowTitle_` (wide strings, modelled as `String`). -/
structure FocusState where
  currentFocusWindow : Option Nat
  currentAppPath : String
  currentWindowTitle : String
deriving Repr, DecidableEq

/-- `UpdateFocusInfo` from `tsf_text_service.cpp` lines 878-910.  The
host queries are parameters: `hwnd` is `GetForegroundWindow()`, `title`
the `GetWindowTextW` result (an empty string when the call yields
nothing), and `pathOk`/`path` the outcome of
`OpenProcess` + `QueryFullProcessImageNameW`.  If the handle equals the
stored one the method returns at once; otherwise it stores the handle
first, clears both identity fields on a null handle, and else always
stores the title while updating the app path only when the process
query succeeded. -/
def UpdateFocusInfo (f : FocusState) (hwnd : Option Nat) (title : String)
    (pathOk : Bool) (path : String) : FocusState :=
  if hwnd = f.currentFocusWindow then f
  else
    match hwnd with
    | none =>
        { currentFocusWindow := none, currentAppPath := "",
          currentWindowTitle := "" }
    | some h =>
        { currentFocusWindow := some h,
          currentAppPath := if pathOk then path else f.currentAppPath,
          currentWindowTitle := title }

/-- A `Target` of the spec's data model: application identity plus
document identity. -/
structure Target where
  applicationId : String
  documentId : String
deriving Repr, DecidableEq

/-- The target `ActivateEx` (lines 460-466) passes to
`WitnessdStartSession`: the focus fields with the fallbacks
`"windows.tsf"` for an empty application path and `"default"` for an
empty window title. -/
def sessionTarget (f : FocusState) : Target :=
  { applicationId :=
      if f.currentAppPath = "" then "windows.tsf" else f.currentAppPath,
    documentId :=
      if f.currentWindowTitle = "" then "default" else f.currentWindowTitle }

-- ============================================================================
-- Capture Controller state (WitnessdTextService + engine session)
-- ============================================================================

/-- Controller state: the `isEnabled_` and `isActivated_` members of
`WitnessdTextService`, the validity of the global pipe handle
`g_hPipe`, the engine-side session flag, and the focus fields.

The session flag is the value reported by `WitnessdHasActiveSession`.
Modelled from the spec: the witnessd engine behind `WitnessdStartSession`,
`WitnessdEndSession` and `WitnessdHasActiveSession` is not in this
repository; per the spec a session becomes open on `startSession` and
closed on `endSession`. -/
structure SvcState where
  isEnabled : Bool
  isActivated : Bool
  pipeConnected : Bool
  sessionOpen : Bool
  focus : FocusState
deriving Repr, DecidableEq

/-- `isSessionActive` of the spec's interface, realised by the engine
query `WitnessdHasActiveSession`. -/
def isSessionActive (st : SvcState) : Bool := st.sessionOpen

/-- The state after the `WitnessdTextService` constructor (lines
311-329): enabled, not activated, null focus window; the global pipe
handle starts invalid and the engine holds no session. -/
def initState : SvcState :=
  { isEnabled := true, isActivated := false, pipeConnected := false,
    sessionOpen := false,
    focus := { currentFocusWindow := none, currentAppPath := "",
               currentWindowTitle := "" } }

-- ============================================================================
-- Observable effects of the key callbacks
-- ============================================================================

/-- One observable outbound action of a key callback: a frame written to
the named pipe, or one of the engine calls `WitnessdOnKeyDown`,
`WitnessdOnTextCommit` (carrying the one-character buffer's char code)
and `WitnessdOnTextDelete`. -/
inductive Effect where
  | frame (vk scan flags : Nat) (ts : Int) (isDown : Bool)
  | keyDown (vk : Nat) (ch : Int)
  | textCommit (ch : Int)
  | textDelete (n : Nat)
deriving Repr, DecidableEq

/-- The engine calls among a list of effects (the pipe frames removed). -/
def engineCalls (l : List Effect) : List Effect :=
  l.filter fun e =>
    match e with
    | .frame _ _ _ _ _ => false
    | _ => true

/-- `WritePipe` at the effect level: the new pipe validity together with
the frame effect when a `WriteFile` was attempted. -/
def writePipeEffects (pipe connectOk writeOk : Bool)
    (vk scan flags : Nat) (ts : Int) (isDown : Bool) : Bool × List Effect :=
  let r := WritePipe pipe connectOk writeOk
  (r.pipe, if r.writeAttempts = 1 then [Effect.frame vk scan flags ts isDown] else [])

/-- The text-event section of `OnKeyDown` (lines 585-594): a
`WitnessdOnTextCommit` exactly when the translated character is in
0x20..0x7E, then a `WitnessdOnTextDelete(1)` exactly when the virtual
key is `VK_BACK` (8). -/
def textEffects (wParam : Nat) (ch : Int) : List Effect :=
  (if 0x20 ≤ ch ∧ ch ≤ 0x7E then [Effect.textCommit ch] else []) ++
  (if wParam = 8 then [Effect.textDelete 1] else [])

/-- Result of a key callback: pipe validity afterwards, the outbound
effects in program order, the value stored in `*pfEaten`, and the
returned HRESULT. -/
structure KeyResult where
  pipe : Bool
  effects : List Effect
  eaten : Bool
  hr : Nat
deriving Repr, DecidableEq

/-- `WitnessdTextService::OnKeyDown` of `tsf_text_service.cpp` lines
565-597.  `ch` is the `VKToChar` result (the host's `ToUnicode`
translation, 0 when none); `connectOk`/`writeOk` are the host pipe
outcomes; `ts` is the performance-counter timestamp.  Sets
`*pfEaten = FALSE`; when disabled returns at once; otherwise writes the
17-byte frame (vk truncated to `uint16_t`, scan = bits 16-23 of
`lParam`, flags = `lParam` truncated to `uint32_t`), calls
`WitnessdOnKeyDown`, then the commit/delete calls. -/
def onKeyDownFull (st : SvcState) (wParam lParam : Nat) (ch : Int)
    (ts : Int) (connectOk writeOk : Bool) : KeyResult :=
  if st.isEnabled = false then
    { pipe := st.pipeConnected, effects := [], eaten := false, hr := S_OK }
  else
    let vk16 := wParam % 2 ^ 16
    let scan := (lParam >>> 16) % 256
    let flags := lParam % 2 ^ 32
    let p := writePipeEffects st.pipeConnected connectOk writeOk vk16 scan flags ts true
    { pipe := p.1,
      effects := p.2 ++ [Effect.keyDown vk16 ch] ++ textEffects wParam ch,
      eaten := false, hr := S_OK }

/-- `WitnessdTextService::OnKeyUp` of `tsf_text_service.cpp` lines
599-616: `*pfEaten = FALSE`; when disabled returns at once; otherwise
writes the key-up frame and makes no engine call. -/
def onKeyUpFull (st : SvcState) (wParam lParam : Nat) (ts : Int)
    (connectOk writeOk : Bool) : KeyResult :=
  if st.isEnabled = false then
    { pipe := st.pipeConnected, effects := [], eaten := false, hr := S_OK }
  else
    let vk16 := wParam % 2 ^ 16
    let scan := (lParam >>> 16) % 256
    let flags := lParam % 2 ^ 32
    let p := writePipeEffects st.pipeConnected connectOk writeOk vk16 scan flags ts false
    { pipe := p.1, effects := p.2, eaten := false, hr := S_OK }

/-- `OnTestKeyDown` (lines 549-555): never eats the key, returns `S_OK`. -/
def onTestKeyDown (wParam lParam : Nat) : Bool × Nat :=
  (false, S_OK)

/-- `OnTestKeyUp` (lines 557-563): never eats the key, returns `S_OK`. -/
def onTestKeyUp (wParam lParam : Nat) : Bool × Nat :=
  (false, S_OK)

/-- `OnPreservedKey` (lines 618-623): never eats the key, returns `S_OK`. -/
def onPreservedKey : Bool × Nat :=
  (false, S_OK)

/-- `WitnessdTextService::OnKeyDown` of the basic variant
`witnessd_tsf.cpp` lines 361-377: `*pfEaten = FALSE`, then
`WitnessdOnKeyDown` with the `uint16_t`-truncated `wParam` and the
translated character, then `WitnessdOnTextCommit` for a printable
character.  No enabled flag, no pipe write, no `VK_BACK` handling. -/
def onKeyDownBasic (wParam : Nat) (ch : Int) : KeyResult :=
  { pipe := false,
    effects := [Effect.keyDown (wParam % 2 ^ 16) ch] ++
      (if 0x20 ≤ ch ∧ ch ≤ 0x7E then [Effect.textCommit ch] else []),
    eaten := false, hr := S_OK }

-- ============================================================================
-- Lifecycle (ActivateEx / Deactivate / OnSetFocus)
-- ============================================================================

/-- `WitnessdTextService::Deactivate` (lines 413-439): returns `S_OK` at
once when not activated; otherwise ends the engine session if one is
open (`WitnessdHasActiveSession` / `WitnessdEndSession`), cleans up the
sinks and clears `isActivated_`. -/
def Deactivate (st : SvcState) : SvcState × Nat :=
  if st.isActivated = false then (st, S_OK)
  else ({ st with sessionOpen := false, isActivated := false }, S_OK)

/-- `WitnessdTextService::ActivateEx` (lines 441-470): a no-op returning
`S_OK` when already activated; on sink-setup failure (`setupOk = false`)
it calls `Deactivate` (itself a no-op, since `isActivated_` is still
false) and returns the failure; otherwise it runs `UpdateFocusInfo`,
starts an engine session with the `sessionTarget` fallbacks, and sets
`isActivated_`. -/
def ActivateEx (st : SvcState) (setupOk : Bool) (hwnd : Option Nat)
    (title : String) (pathOk : Bool) (path : String) : SvcState × Nat :=
  if st.isActivated then (st, S_OK)
  else if setupOk = false then (st, E_FAIL)
  else
    let f := UpdateFocusInfo st.focus hwnd title pathOk path
    ({ st with focus := f, sessionOpen := true, isActivated := true }, S_OK)

/-- `WitnessdTextService::OnSetFocus(BOOL)` (lines 543-547): runs
`UpdateFocusInfo` unconditionally and returns `S_OK`.  The enabled flag
is not consulted. -/
def onSetFocusSvc (st : SvcState) (hwnd : Option Nat) (title : String)
    (pathOk : Bool) (path : String) : SvcState × Nat :=
  ({ st with focus := UpdateFocusInfo st.focus hwnd title pathOk path }, S_OK)

/-- One host lifecycle call: `ActivateEx` (with the outcomes of its host
queries) or `Deactivate`. -/
inductive HostCall where
  | activateEx (setupOk : Bool) (hwnd : Option Nat) (title : String)
      (pathOk : Bool) (path : String)
  | deactivate
deriving Repr

/-- Apply one lifecycle call to the controller state. -/
def hostStep (st : SvcState) (c : HostCall) : SvcState :=
  match c with
  | .activateEx s h t ok p => (ActivateEx st s h t ok p).1
  | .deactivate => (Deactivate st).1

/-- Run a finite sequence of lifecycle calls from the initial state. -/
def runCalls (cs : List HostCall) : SvcState :=
  cs.foldl hostStep initState

-- ============================================================================
-- Utf8FromUtf16 (witnessd-gui/windows/runner/utils.cpp, lines 50-71)
-- ============================================================================

/-- Control-flow outcome of `Utf8FromUtf16`: an empty string returned
with no `resize`, an empty string returned after a `resize` to the given
length (the `converted_length == 0` path), or a converted string of the
given length. -/
inductive U8Out where
  | empty
  | emptyAfterResize (n : Nat)
  | converted (n : Nat)
deriving Repr, DecidableEq

/-- `Utf8FromUtf16` from `utils.cpp` lines 50-71.  The Win32 conversion
is a parameter: `probe` is the first `WideCharToMultiByte` result
(byte count including the terminator; 0 on failure) and `convertedLen`
the second; `maxSize` is `std::string::max_size()`.  The source computes
`unsigned int target_length = probe - 1` (wrapping to `UINT_MAX = 2^32 - 1`
when the probe failed with 0), returns empty when `target_length == 0`
or `target_length > max_size()`, otherwise resizes to `target_length`
and returns empty if the second conversion reports 0. -/
def Utf8FromUtf16 (isNull : Bool) (probe : Nat) (maxSize : Nat)
    (convertedLen : Nat) : U8Out :=
  if isNull then .empty
  else
    let target := (probe + (2 ^ 32 - 1)) % 2 ^ 32
    if target = 0 ∨ target > maxSize then .empty
    else if convertedLen = 0 then .emptyAfterResize target
    else .converted target

/-- The invariant linking the engine session to the controller: a
session is only open while the service is activated. -/
def SessionInv (st : SvcState) : Prop :=
  st.sessionOpen = true → st.isActivated = true

-- ============================================================================
-- Theorems
-- ============================================================================

lemma toLE_length (k n : Nat) : (toLE k n).length = k := by
  induction k generalizing n with
  | zero => simp [toLE]
  | succ k ih => simp [toLE, ih]

lemma fromLE_toLE (k n : Nat) : fromLE (toLE k n) = n % 256 ^ k := by
  induction k generalizing n with
  | zero => simp [toLE, fromLE, Nat.mod_one]
  | succ k ih =>
    rw [toLE, fromLE, ih, pow_succ, mul_comm (256 ^ k) 256, Nat.mod_mul]

/-- C2: for every `KeystrokeEvent` whose fields fit their declared
widths, the encoded wire frame is exactly 17 bytes in the fixed
little-endian layout, and decoding it by that layout recovers the
identical event. -/
theorem keystroke_frame_roundtrip (e : KeystrokeEvent)
    (h1 : -(2 : Int) ^ 63 ≤ e.timestampNanos)
    (h2 : e.timestampNanos < 2 ^ 63)
    (h3 : e.virtualKeyCode < 2 ^ 16) (h4 : e.scanCode < 2 ^ 16)
    (h5 : e.flags < 2 ^ 32) :
    (encodeKeystroke e).length = 17 ∧
    decodeKeystroke (encodeKeystroke e) = some e := by
  obtain ⟨t, vk, sc, fl, d⟩ := e
  simp only at h1 h2 h3 h4 h5
  have hbs : encodeKeystroke ⟨t, vk, sc, fl, d⟩ =
      toLE 8 (t % (2 ^ 64 : Int)).toNat ++
        (toLE 2 vk ++ (toLE 2 sc ++ (toLE 4 fl ++ [if d then 1 else 0]))) := by
    simp [encodeKeystroke, List.append_assoc]
  have hlen : (encodeKeystroke ⟨t, vk, sc, fl, d⟩).length = 17 := by
    rw [hbs]; simp [toLE_length]
  refine ⟨hlen, ?_⟩
  rw [decodeKeystroke, if_pos hlen, hbs]
  have t8 : (toLE 8 (t % (2 ^ 64 : Int)).toNat ++
      (toLE 2 vk ++ (toLE 2 sc ++ (toLE 4 fl ++ [if d then 1 else 0])))).take 8 =
      toLE 8 (t % (2 ^ 64 : Int)).toNat := List.take_left' (toLE_length 8 _)
  have d8 : (toLE 8 (t % (2 ^ 64 : Int)).toNat ++
      (toLE 2 vk ++ (toLE 2 sc ++ (toLE 4 fl ++ [if d then 1 else 0])))).drop 8 =
      toLE 2 vk ++ (toLE 2 sc ++ (toLE 4 fl ++ [if d then 1 else 0])) :=
    List.drop_left' (toLE_length 8 _)
  have d10 : (toLE 8 (t % (2 ^ 64 : Int)).toNat ++
      (toLE 2 vk ++ (toLE 2 sc ++ (toLE 4 fl ++ [if d then 1 else 0])))).drop 10 =
      toLE 2 sc ++ (toLE 4 fl ++ [if d then 1 else 0]) := by
    have := List.drop_drop 2 8 (toLE 8 (t % (2 ^ 64 : Int)).toNat ++
      (toLE 2 vk ++ (toLE 2 sc ++ (toLE 4 fl ++ [if d then 1 else 0]))))
    rw [show (2 + 8 : Nat) = 10 from rfl] at this
    rw [← this, d8, List.drop_left' (toLE_length 2 _)]
  have d12 : (toLE 8 (t % (2 ^ 64 : Int)).toNat ++
      (toLE 2 vk ++ (toLE 2 sc ++ (toLE 4 fl ++ [if d then 1 else 0])))).drop 12 =
      toLE 4 fl ++ [if d then 1 else 0] := by
    have := List.drop_drop 2 10 (toLE 8 (t % (2 ^ 64 : Int)).toNat ++
      (toLE 2 vk ++ (toLE 2 sc ++ (toLE 4 fl ++ [if d then 1 else 0]))))
    rw [show (2 + 10 : Nat) = 12 from rfl] at this
    rw [← this, d10, List.drop_left' (toLE_length 2 _)]
  have d16 : (toLE 8 (t % (2 ^ 64 : Int)).toNat ++
      (toLE 2 vk ++ (toLE 2 sc ++ (toLE 4 fl ++ [if d then 1 else 0])))).drop 16 =
      [if d then 1 else 0] := by
    have := List.drop_drop 4 12 (toLE 8 (t % (2 ^ 64 : Int)).toNat ++
      (toLE 2 vk ++ (toLE 2 sc ++ (toLE 4 fl ++ [if d then 1 else 0]))))
    rw [show (4 + 12 : Nat) = 16 from rfl] at this
    rw [← this, d12, List.drop_left' (toLE_length 4 _)]
  rw [t8, d16]
  rw [d8, List.take_left' (toLE_length 2 _)]
  rw [d10, List.take_left' (toLE_length 2 _)]
  rw [d12, List.take_left' (toLE_length 4 _)]
  have hm0 : (0 : Int) ≤ t % 2 ^ 64 := Int.emod_nonneg t (by norm_num)
  have hm1 : t % (2 ^ 64 : Int) < 2 ^ 64 := Int.emod_lt_of_pos t (by norm_num)
  have htsN : (t % (2 ^ 64 : Int)).toNat < 2 ^ 64 := by omega
  have hts : fromLE (toLE 8 (t % (2 ^ 64 : Int)).toNat) =
      (t % (2 ^ 64 : Int)).toNat := by
    rw [fromLE_toLE]
    exact Nat.mod_eq_of_lt (by norm_num at htsN ⊢; exact htsN)
  have hvk : fromLE (toLE 2 vk) = vk := by
    rw [fromLE_toLE]
    exact Nat.mod_eq_of_lt (by norm_num at h3 ⊢; exact h3)
  have hsc : fromLE (toLE 2 sc) = sc := by
    rw [fromLE_toLE]
    exact Nat.mod_eq_of_lt (by norm_num at h4 ⊢; exact h4)
  have hfl : fromLE (toLE 4 fl) = fl := by
    rw [fromLE_toLE]
    exact Nat.mod_eq_of_lt (by norm_num at h5 ⊢; exact h5)
  rw [hts, hvk, hsc, hfl]
  simp only [Option.some.injEq, KeystrokeEvent.mk.injEq]
  refine ⟨?_, trivial, trivial, trivial, ?_⟩
  · split
    · next hlt => omega
    · next hge => omega
  · cases d <;> rfl

/-- C2 witness: the round trip at the spec's concrete event
`KeystrokeEvent{ts=1234567890, vk=0x41, scan=0x1E, flags=0, isKeyDown=true}`. -/
theorem keystroke_frame_roundtrip_witness :
    (encodeKeystroke ⟨1234567890, 0x41, 0x1E, 0, true⟩).length = 17 ∧
    decodeKeystroke (encodeKeystroke ⟨1234567890, 0x41, 0x1E, 0, true⟩) =
      some ⟨1234567890, 0x41, 0x1E, 0, true⟩ :=
  keystroke_frame_roundtrip ⟨1234567890, 0x41, 0x1E, 0, true⟩
    (by decide) (by decide) (by decide) (by decide) (by decide)

/-- C3: for every `WritePipe` call, a `WriteFile` is attempted exactly
when the pipe is connected at the attempt (already connected, or just
reconnected by the single `ConnectPipe` attempt); a write failure leaves
the channel disconnected; and a send that starts disconnected makes
exactly one connect attempt before retrying the write.  The model has no
timer: the only transitions are those of `WritePipe` itself. -/
theorem transport_reconnect_discipline (p c w : Bool) :
    (WritePipe p c w).connectAttempts = (if p then 0 else 1) ∧
    (WritePipe p c w).writeAttempts = (if p || c then 1 else 0) ∧
    (WritePipe p c w).pipe = ((p || c) && w) ∧
    ((WritePipe p c w).writeAttempts = 1 → (p || c) = true) ∧
    (w = false → (WritePipe p c w).writeAttempts = 1 →
      (WritePipe p c w).pipe = false) := by
  cases p <;> cases c <;> cases w <;> decide

/-- C3 witness: a send on a connected channel whose `WriteFile` fails
leaves the channel disconnected. -/
theorem transport_reconnect_discipline_witness :
    (WritePipe true true false).pipe = false :=
  (transport_reconnect_discipline true true false).2.2.2.2 rfl rfl

/-- C10: every `ITfKeyEventSink` callback of the complete text service
(`OnTestKeyDown`, `OnTestKeyUp`, `OnKeyDown`, `OnKeyUp`,
`OnPreservedKey`) stores `FALSE` in `*pfEaten` and returns `S_OK`, for
every input and in every state. -/
theorem key_sink_never_eats (st : SvcState) (wParam lParam : Nat)
    (ch ts : Int) (c w : Bool) :
    onTestKeyDown wParam lParam = (false, S_OK) ∧
    onTestKeyUp wParam lParam = (false, S_OK) ∧
    (onKeyDownFull st wParam lParam ch ts c w).eaten = false ∧
    (onKeyDownFull st wParam lParam ch ts c w).hr = S_OK ∧
    (onKeyUpFull st wParam lParam ts c w).eaten = false ∧
    (onKeyUpFull st wParam lParam ts c w).hr = S_OK ∧
    onPreservedKey = (false, S_OK) := by
  cases hE : st.isEnabled <;>
    simp [onTestKeyDown, onTestKeyUp, onPreservedKey, onKeyDownFull,
      onKeyUpFull, hE]

/-- C5: the key-to-text mapping of `OnKeyDown` emits a
`WitnessdOnTextCommit` exactly when the translated character is
printable (0x20 through 0x7E inclusive), a `WitnessdOnTextDelete(1)`
exactly when the key is `VK_BACK` (8), and nothing for every other
key. -/
theorem key_to_text_mapping (wParam : Nat) (ch : Int) :
    ((∃ c, Effect.textCommit c ∈ textEffects wParam ch) ↔
      (0x20 ≤ ch ∧ ch ≤ 0x7E)) ∧
    (Effect.textDelete 1 ∈ textEffects wParam ch ↔ wParam = 8) ∧
    (¬(0x20 ≤ ch ∧ ch ≤ 0x7E) → wParam ≠ 8 → textEffects wParam ch = []) := by
  by_cases hP : (0x20 : Int) ≤ ch ∧ ch ≤ 0x7E <;>
    by_cases hB : wParam = 8 <;>
      simp [textEffects, hP, hB]

/-- C5 witness: a non-printable, non-backspace key (Tab, translated
character 0) yields no text event. -/
theorem key_to_text_mapping_witness : textEffects 9 0 = [] :=
  (key_to_text_mapping 9 0).2.2 (by decide) (by decide)

/-- C1 counterexample: a key-down delivered while no session is open
(`isSessionActive = false`) is still forwarded: with the service enabled
and the pipe connected, `OnKeyDown` for the A key writes a frame to the
pipe and makes the engine calls, and the code holds no dropped-event
counter that could be incremented. -/
theorem keydown_forwards_without_open_session :
    isSessionActive { initState with pipeConnected := true } = false ∧
    (onKeyDownFull { initState with pipeConnected := true }
        0x41 0x1E0000 97 0 true true).effects =
      [Effect.frame 0x41 0x1E 0x1E0000 0 true, Effect.keyDown 0x41 97,
       Effect.textCommit 97] := by
  decide

/-- C1 amended: `OnKeyDown` never consults the session state — its
result is identical whatever `WitnessdHasActiveSession` would report —
and events are dropped (with no counter anywhere) exactly when the
enabled flag is off, in which case nothing is forwarded at all. -/
theorem keydown_ignores_session_state (st : SvcState) (b : Bool)
    (wParam lParam : Nat) (ch ts : Int) (c w : Bool) :
    onKeyDownFull { st with sessionOpen := b } wParam lParam ch ts c w =
      onKeyDownFull st wParam lParam ch ts c w ∧
    onKeyUpFull { st with sessionOpen := b } wParam lParam ts c w =
      onKeyUpFull st wParam lParam ts c w ∧
    onKeyDownFull { st with isEnabled := false } wParam lParam ch ts c w =
      { pipe := st.pipeConnected, effects := [], eaten := false,
        hr := S_OK } := by
  refine ⟨rfl, rfl, ?_⟩
  simp [onKeyDownFull]

/-- C6 counterexample: a focus change to a fresh window whose title read
back empty and whose process path query failed yields the session target
`{applicationId := "windows.tsf", documentId := "default"}`, not the
claimed `{applicationId := "unknown", documentId := "default"}` — the
string `"unknown"` appears nowhere in the fallback. -/
theorem focus_fallback_not_unknown :
    sessionTarget (UpdateFocusInfo ⟨none, "", ""⟩ (some 1) "" false "") =
      { applicationId := "windows.tsf", documentId := "default" } ∧
    ({ applicationId := "windows.tsf", documentId := "default" } : Target) ≠
      { applicationId := "unknown", documentId := "default" } := by
  decide

/-- C6 amended: `UpdateFocusInfo` always leaves the stored raw handle
equal to the incoming one, even when resolution partially failed; and a
focus change to a new handle whose lookups are unresolvable (empty
title, failed process query) degrades — when no earlier application
path is retained — to the session target
`{applicationId := "windows.tsf", documentId := "default"}` rather than
failing the transition. -/
theorem focus_resolution_fallback (f : FocusState) (hwnd : Option Nat)
    (title path : String) (ok : Bool) :
    (UpdateFocusInfo f hwnd title ok path).currentFocusWindow = hwnd ∧
    (hwnd ≠ f.currentFocusWindow → f.currentAppPath = "" →
      sessionTarget (UpdateFocusInfo f hwnd "" false path) =
        { applicationId := "windows.tsf", documentId := "default" }) := by
  constructor
  · unfold UpdateFocusInfo
    split
    · next h => exact h.symm
    · cases hwnd <;> rfl
  · intro hne hempty
    unfold UpdateFocusInfo
    rw [if_neg hne]
    cases hwnd with
    | none => rfl
    | some h => simp [sessionTarget, hempty]

/-- C6 amended witness: the fallback at a concrete unresolvable focus
change, with the stored handle updated. -/
theorem focus_resolution_fallback_witness :
    (UpdateFocusInfo ⟨none, "", "old"⟩ (some 5) "t" true "p").currentFocusWindow
        = some 5 ∧
    sessionTarget (UpdateFocusInfo ⟨none, "", "old"⟩ (some 5) "" false "p") =
      { applicationId := "windows.tsf", documentId := "default" } :=
  ⟨(focus_resolution_fallback ⟨none, "", "old"⟩ (some 5) "t" "p" true).1,
   (focus_resolution_fallback ⟨none, "", "old"⟩ (some 5) "t" "p" true).2
     (by decide) rfl⟩

/-- C7: with the enabled flag off, `OnKeyDown` and `OnKeyUp` are no-ops
(no frame, no engine call, state unchanged, still `*pfEaten = FALSE` and
`S_OK`), while `OnSetFocus`, `Deactivate` and `ActivateEx` behave
identically whatever the flag's value. -/
theorem disabled_flag_scope (st : SvcState) (e s : Bool)
    (wParam lParam : Nat) (ch ts : Int) (c w : Bool) (hwnd : Option Nat)
    (title path : String) (ok : Bool) :
    onKeyDownFull { st with isEnabled := false } wParam lParam ch ts c w =
      { pipe := st.pipeConnected, effects := [], eaten := false,
        hr := S_OK } ∧
    onKeyUpFull { st with isEnabled := false } wParam lParam ts c w =
      { pipe := st.pipeConnected, effects := [], eaten := false,
        hr := S_OK } ∧
    (onSetFocusSvc { st with isEnabled := e } hwnd title ok path).1 =
      { (onSetFocusSvc st hwnd title ok path).1 with isEnabled := e } ∧
    (onSetFocusSvc { st with isEnabled := e } hwnd title ok path).2 = S_OK ∧
    (Deactivate { st with isEnabled := e }).1 =
      { (Deactivate st).1 with isEnabled := e } ∧
    (ActivateEx { st with isEnabled := e } s hwnd title ok path).1 =
      { (ActivateEx st s hwnd title ok path).1 with isEnabled := e } := by
  obtain ⟨en, act, pc, so, fo⟩ := st
  cases act <;> cases s <;>
    simp [onKeyDownFull, onKeyUpFull, onSetFocusSvc, Deactivate, ActivateEx]

/-- C8 counterexample: for a backspace key-down (`wParam = VK_BACK = 8`,
translated character 0x08), the complete service's `OnKeyDown` makes the
engine calls `WitnessdOnKeyDown(8, 8)` then `WitnessdOnTextDelete(1)`,
while the basic variant makes only `WitnessdOnKeyDown(8, 8)` — the two
sequences differ. -/
theorem backspace_sequences_differ :
    engineCalls (onKeyDownFull { initState with pipeConnected := true }
        8 0x0E0000 8 0 true true).effects =
      [Effect.keyDown 8 8, Effect.textDelete 1] ∧
    (onKeyDownBasic 8 8).effects = [Effect.keyDown 8 8] ∧
    ([Effect.keyDown 8 8, Effect.textDelete 1] : List Effect) ≠
      [Effect.keyDown 8 8] := by
  decide

/-- C8 amended: for every key-down that is not `VK_BACK`, the two
`OnKeyDown` implementations produce the same sequence of engine calls
(the complete service taken with capture enabled); for `VK_BACK` the
complete one additionally calls `WitnessdOnTextDelete(1)`. -/
theorem keydown_variants_agree_on_non_backspace (st : SvcState)
    (wParam lParam : Nat) (ch ts : Int) (c w : Bool)
    (hE : st.isEnabled = true) (hB : wParam ≠ 8) :
    engineCalls (onKeyDownFull st wParam lParam ch ts c w).effects =
      (onKeyDownBasic wParam ch).effects := by
  simp only [onKeyDownFull, hE, Bool.true_eq_false, if_false,
    onKeyDownBasic, engineCalls, writePipeEffects, textEffects, hB,
    if_neg hB, List.append_nil, List.filter_append]
  by_cases hW : (WritePipe st.pipeConnected c w).writeAttempts = 1 <;>
    by_cases hP : (0x20 : Int) ≤ ch ∧ ch ≤ 0x7E <;>
      simp [hW, hP, List.filter]

/-- C8 amended witness: the agreement at the concrete printable key
`A` (vk 0x41, translated character 97). -/
theorem keydown_variants_agree_witness :
    engineCalls (onKeyDownFull initState 0x41 0x1E0000 97 0 true true).effects =
      (onKeyDownBasic 0x41 97).effects :=
  keydown_variants_agree_on_non_backspace initState 0x41 0x1E0000 97 0
    true true rfl (by decide)

/-- C9: `Utf8FromUtf16` returns the empty string for a null input, and a
successful conversion resizes to the probed length; but when the first
conversion fails (probe 0), `target_length` wraps to `UINT_MAX` and on a
64-bit build (`max_size() = 2^63 - 1`) the guard does not catch the
wrap: the function resizes to `2^32 - 1` before the second conversion's
failure returns the empty string.  Only a 32-bit `max_size()` below
`UINT_MAX` makes the guard catch the wrap as the claim states. -/
theorem utf8FromUtf16_wrap_resizes :
    Utf8FromUtf16 true 0 (2 ^ 63 - 1) 0 = U8Out.empty ∧
    Utf8FromUtf16 false 7 (2 ^ 63 - 1) 6 = U8Out.converted 6 ∧
    Utf8FromUtf16 false 0 (2 ^ 63 - 1) 0 =
      U8Out.emptyAfterResize (2 ^ 32 - 1) ∧
    Utf8FromUtf16 false 0 (2 ^ 31 - 1) 0 = U8Out.empty := by
  decide

lemma sessionInv_init : SessionInv initState := by
  simp [SessionInv, initState]

lemma sessionInv_step (st : SvcState) (c : HostCall) (h : SessionInv st) :
    SessionInv (hostStep st c) := by
  cases c with
  | activateEx s hw t ok p =>
    unfold hostStep ActivateEx
    by_cases hA : st.isActivated
    · simpa [hA] using h
    · by_cases hs : s = false
      · simpa [hA, hs] using h
      · simp [hA, hs, SessionInv]
  | deactivate =>
    unfold hostStep Deactivate
    by_cases hA : st.isActivated = false
    · simpa [hA] using h
    · simp [hA, SessionInv]

lemma sessionInv_foldl (cs : List HostCall) (st : SvcState)
    (h : SessionInv st) : SessionInv (cs.foldl hostStep st) := by
  induction cs generalizing st with
  | nil => simpa using h
  | cons c cs ih => exact ih _ (sessionInv_step st c h)

/-- C4: after every finite sequence of `ActivateEx`/`Deactivate` calls
from the initial state, a `Deactivate` leaves no open session
(`isSessionActive` is false) and no activation, returns `S_OK`, and a
second `Deactivate` is a no-op that also returns `S_OK`. -/
theorem deactivate_closes_session (cs : List HostCall) :
    isSessionActive (Deactivate (runCalls cs)).1 = false ∧
    (Deactivate (runCalls cs)).1.isActivated = false ∧
    (Deactivate (runCalls cs)).2 = S_OK ∧
    Deactivate (Deactivate (runCalls cs)).1 =
      ((Deactivate (runCalls cs)).1, S_OK) := by
  have hinv : SessionInv (runCalls cs) :=
    sessionInv_foldl cs initState sessionInv_init
  have hAct : (Deactivate (runCalls cs)).1.isActivated = false := by
    unfold Deactivate
    by_cases hA : (runCalls cs).isActivated = false <;> simp [hA]
  refine ⟨?_, hAct, ?_, ?_⟩
  · unfold Deactivate isSessionActive
    by_cases hA : (runCalls cs).isActivated = false
    · cases hso : (runCalls cs).sessionOpen
      · simp [hA, hso]
      · exact absurd (hinv hso) (by simp [hA])
    · simp [hA]
  · unfold Deactivate
    by_cases hA : (runCalls cs).isActivated = false <;> simp [hA]
  · unfold Deactivate
    by_cases hA : (runCalls cs).isActivated = false
    · simp only [Deactivate, hA] at hAct
      simp [hA, hAct]
    · simp [hA]
